import Mathlib

/-!
Shallow embedding of the endless-runner game in `src/unnamed/part_000`
(the full variant: lanes, jump, slide, shooting, breakable obstacles).

Conventions of the embedding:
* JavaScript numbers are modelled as exact rationals (`ℚ`); every constant
  in the source is an exact decimal, so no rounding is involved.
* `Math.random()` draws are modelled by an explicit stream of rationals in
  `[0, 1)` together with a cursor (`Rng`); each call to the stream consumes
  one value, in the exact order the source calls `Math.random()`.
* Distance comparisons `Math.sqrt(s) < 1.0` are embedded as `s < 1`, which
  is equivalent for nonnegative `s` since `Real.sqrt` is monotone and
  `sqrt 1 = 1`; this keeps every predicate decidable over `ℚ`.
* DOM, renderer, shaders and overlays are presentation-only collaborators
  and carry no game state; they are omitted.
-/

/-- Lane half-pitch: `const laneWidth = 3`. -/
def laneWidth : ℚ := 3

/-- Segment length: `const laneLength = 200`. -/
def laneLength : ℚ := 200

/-- `const lanePositions = [-laneWidth, 0, laneWidth]`. -/
def lanePositions : List ℚ := [-laneWidth, 0, laneWidth]

/-- Ground-level eye height of the camera: `const eyeLevel = 1.6`. -/
def eyeLevel : ℚ := 8/5

/-- `const gravity = 0.01`. -/
def gravity : ℚ := 1/100

/-- `const standupSpeed = 0.01`. -/
def standupSpeed : ℚ := 1/100

/-- `const spawnInterval = 10`. -/
def spawnInterval : ℚ := 10

/-- `const bulletSpeed = 2.0`. -/
def bulletSpeed : ℚ := 2

/-- `const bulletLifespan = 6`. -/
def bulletLifespan : ℚ := 6

/-- `let shootCooldown = 0.3`. -/
def shootCooldown : ℚ := 3/10

/-- An obstacle mesh: `position` plus `userData.isBreakable`.
The height class of the source (`"ground"`/`"overhead"`) is represented by
its `y` coordinate exactly as the source stores it (`0.5` or `2`). -/
structure Obstacle where
  x : ℚ
  y : ℚ
  z : ℚ
  isBreakable : Bool
deriving DecidableEq, Repr

/-- A bullet mesh: `position`, `userData.direction`, `userData.creationTime`. -/
structure Bullet where
  x : ℚ
  y : ℚ
  z : ℚ
  dirX : ℚ
  dirY : ℚ
  dirZ : ℚ
  creationTime : ℚ
deriving DecidableEq, Repr

/-- A stream of `Math.random()` results (values expected in `[0,1)`),
with `idx` the cursor of the next unconsumed draw. -/
structure Rng where
  seq : ℕ → ℚ
  idx : ℕ

/-- Consume one `Math.random()` draw. -/
def Rng.next (g : Rng) : ℚ × Rng :=
  (g.seq g.idx, ⟨g.seq, g.idx + 1⟩)

/-- `Math.floor(r * lanePositions.length)` as a natural index. -/
def laneIndexOfRoll (r : ℚ) : ℕ :=
  Int.toNat ⌊r * 3⌋

/-- `lanePositions[i]` (in the source the index is always in range). -/
def lanePosAt (i : ℕ) : ℚ :=
  lanePositions.getD i 0

/-- `createObstacle()` (part_000 lines 251–277).  Draw order follows the
source exactly: breakability roll, lane roll, z roll, height-class roll.
`z = -Math.random() * 200 - 100`; ground obstacles sit at `y = 0.5`,
overhead obstacles at `y = 2`. -/
def createObstacle (g : Rng) : Obstacle × Rng :=
  let pB := g.next
  let pL := pB.2.next
  let pZ := pL.2.next
  let pT := pZ.2.next
  ({ x := lanePosAt (laneIndexOfRoll pL.1)
   , y := if pT.1 < 1/2 then 1/2 else 2
   , z := -pZ.1 * 200 - 100
   , isBreakable := decide (pB.1 < 3/5) }, pT.2)

/-- `bullet.position.addScaledVector(bullet.userData.direction, bulletSpeed)`. -/
def moveBullet (b : Bullet) : Bullet :=
  { b with
    x := b.x + b.dirX * bulletSpeed
    y := b.y + b.dirY * bulletSpeed
    z := b.z + b.dirZ * bulletSpeed }

/-- Squared 3-D distance between a bullet and an obstacle; the source
compares `Math.sqrt(dx*dx+dy*dy+dz*dz) < 1.0`, equivalently this `< 1`. -/
def bulletObstacleDistSq (b : Bullet) (ob : Obstacle) : ℚ :=
  (b.x - ob.x)^2 + (b.y - ob.y)^2 + (b.z - ob.z)^2

/-- The inner obstacle loop of `updateBullets` (part_000 lines 322–342) for
one bullet: scan obstacles in index order; at the first obstacle within the
hit radius, if it is breakable splice it out and push a fresh
`createObstacle()` at the end, and in either case stop (`break`).  Returns
(bullet hit something, updated obstacle list, updated rng). -/
def bulletHitObstacles (b : Bullet) : List Obstacle → Rng → Bool × List Obstacle × Rng
  | [], g => (false, [], g)
  | ob :: rest, g =>
    if bulletObstacleDistSq b ob < 1 then
      if ob.isBreakable then
        let p := createObstacle g
        (true, rest ++ [p.1], p.2)
      else
        (true, ob :: rest, g)
    else
      let r := bulletHitObstacles b rest g
      (r.1, ob :: r.2.1, r.2.2)

/-- `updateBullets` (part_000 lines 308–353) at current game time `t`:
each bullet is moved by its direction times `bulletSpeed`; a bullet with
`t - creationTime > bulletLifespan` is collected for removal (and skips the
hit test); otherwise it hit-tests against the live obstacles, the first hit
removing the bullet (and, for a breakable obstacle, replacing it).  The
collected bullets are removed at the end of the pass, which this functional
version realises by simply not emitting them. -/
def updateBulletsAux (t : ℚ) : List Bullet → List Obstacle → Rng → List Bullet × List Obstacle × Rng
  | [], obs, g => ([], obs, g)
  | b :: rest, obs, g =>
    let b1 := moveBullet b
    if t - b.creationTime > bulletLifespan then
      updateBulletsAux t rest obs g
    else
      let h := bulletHitObstacles b1 obs g
      let r := updateBulletsAux t rest h.2.1 h.2.2
      if h.1 then r else (b1 :: r.1, r.2.1, r.2.2)

/-- The exemption test of `checkCollisions` (part_000 line 385):
`(camera.position.y > eyeLevel && dy > 1.0) || (camera.position.y < eyeLevel && dy > 0.5)`
where `dy = Math.abs(camera.position.y - obstacle.position.y)`. -/
def collisionExempt (py : ℚ) (ob : Obstacle) : Prop :=
  (py > eyeLevel ∧ |py - ob.y| > 1) ∨ (py < eyeLevel ∧ |py - ob.y| > 1/2)

instance (py : ℚ) (ob : Obstacle) : Decidable (collisionExempt py ob) := by
  unfold collisionExempt; infer_instance

/-- `checkCollisions` (part_000 lines 378–394): scan obstacles in collection
order; an obstacle with horizontal squared distance `< 1` either is skipped
(`continue`) when the player is exempt, or ends the run (`break`).  Here the
function returns whether the loop set `isGameOver`. -/
def checkCollisions (px py pz : ℚ) : List Obstacle → Bool
  | [] => false
  | ob :: rest =>
    if (px - ob.x)^2 + (pz - ob.z)^2 < 1 then
      if collisionExempt py ob then checkCollisions px py pz rest
      else true
    else checkCollisions px py pz rest

/-- Vertical motion state of the player (fields of part_000 lines 23–29 plus
the camera height they act on). -/
structure MotionState where
  y : ℚ
  jumpVelocity : ℚ
  slideVelocity : ℚ
  isJumping : Bool
  isSliding : Bool
deriving DecidableEq, Repr

/-- The jump branch of the keydown handler (part_000 lines 478–481):
`if (... && !isJumping && !isSliding) { isJumping = true; jumpVelocity = 0.15; }`.
The handler body runs only when the game is not over. -/
def tryJump (s : MotionState) : MotionState :=
  if !s.isJumping && !s.isSliding then
    { s with isJumping := true, jumpVelocity := 3/20 }
  else s

/-- The slide branch of the keydown handler (part_000 lines 483–486):
`if (... && !isSliding && !isJumping) { isSliding = true; slideVelocity = -0.15; }`. -/
def trySlide (s : MotionState) : MotionState :=
  if !s.isSliding && !s.isJumping then
    { s with isSliding := true, slideVelocity := -3/20 }
  else s

/-- The per-frame jump and slide integration of `animate`
(part_000 lines 523–543), in source order: first the jump block
(`y += jumpVelocity; jumpVelocity -= gravity;` clamp when `y <= eyeLevel`),
then the slide block (`y += slideVelocity; slideVelocity += standupSpeed;`
clamp when `y >= eyeLevel`).  Neither block is scaled by `delta`. -/
def motionTick (s : MotionState) : MotionState :=
  let s1 :=
    if s.isJumping then
      let y1 := s.y + s.jumpVelocity
      let v1 := s.jumpVelocity - gravity
      if y1 ≤ eyeLevel then
        { s with y := eyeLevel, isJumping := false, jumpVelocity := 0 }
      else
        { s with y := y1, jumpVelocity := v1 }
    else s
  if s1.isSliding then
    let y2 := s1.y + s1.slideVelocity
    let v2 := s1.slideVelocity + standupSpeed
    if y2 ≥ eyeLevel then
      { s1 with y := eyeLevel, isSliding := false, slideVelocity := 0 }
    else
      { s1 with y := y2, slideVelocity := v2 }
  else s1

/-- One obstacle step of the `obstacles.forEach` loop in `animate`
(part_000 lines 556–570): advance `z` by `speed`; past the recycle
threshold `cameraZ + laneLength / 2`, draw a new lane, a new
`z = -Math.random() * 200 - 200`, and a fresh breakability flag (which also
selects the material).  The height `y` is not touched by this block. -/
def moveObstacle (ob : Obstacle) (speed camZ : ℚ) (g : Rng) : Obstacle × Rng :=
  let z1 := ob.z + speed
  if z1 > camZ + laneLength / 2 then
    let pL := g.next
    let pZ := pL.2.next
    let pB := pZ.2.next
    ({ x := lanePosAt (laneIndexOfRoll pL.1)
     , y := ob.y
     , z := -pZ.1 * 200 - 200
     , isBreakable := decide (pB.1 < 3/5) }, pB.2)
  else
    ({ ob with z := z1 }, g)

/-- The recycling step as the spec words it (§4.3): in addition to the lane,
far-`z` and breakability draws it also rerolls the height class with a
fourth draw, resampling `y` between ground (`0.5`) and overhead (`2`).
This definition follows the spec's words, not the source, and exists to be
compared with `moveObstacle`. -/
def moveObstacleSpecRecycle (ob : Obstacle) (speed camZ : ℚ) (g : Rng) : Obstacle × Rng :=
  let z1 := ob.z + speed
  if z1 > camZ + laneLength / 2 then
    let pL := g.next
    let pZ := pL.2.next
    let pB := pZ.2.next
    let pT := pB.2.next
    ({ x := lanePosAt (laneIndexOfRoll pL.1)
     , y := if pT.1 < 1/2 then 1/2 else 2
     , z := -pZ.1 * 200 - 200
     , isBreakable := decide (pB.1 < 3/5) }, pT.2)
  else
    ({ ob with z := z1 }, g)

/-- The whole `obstacles.forEach` loop, threading the random stream through
the obstacles in collection order. -/
def moveObstacles (speed camZ : ℚ) : List Obstacle → Rng → List Obstacle × Rng
  | [], g => ([], g)
  | ob :: rest, g =>
    let p := moveObstacle ob speed camZ g
    let r := moveObstacles speed camZ rest p.2
    (p.1 :: r.1, r.2)

/-- One lane-segment step of `animate` (part_000 lines 546–553): advance by
`speed`, and wrap a segment past `cameraZ + laneLength / 2` backward by
`laneLength * numSegments = 400`. -/
def moveSegment (speed camZ z : ℚ) : ℚ :=
  let z1 := z + speed
  if z1 > camZ + laneLength / 2 then z1 - laneLength * 2 else z1

/-- `THREE.MathUtils.lerp(x, y, t) = x + (y - x) * t`. -/
def lerp (x y t : ℚ) : ℚ := x + (y - x) * t

/-- The state read and written by a fire request: the live bullet list,
the cooldown timestamp `lastShootTime`, and the `canShoot` flag
(part_000 lines 49–54; `canShoot` is initialised `true`, reset to `true`
by `resetGame`, and never assigned `false` anywhere in the source). -/
structure ShootState where
  bullets : List Bullet
  lastShootTime : ℚ
  canShoot : Bool
deriving DecidableEq, Repr

/-- A fire request (keydown `f`/`e`, part_000 lines 488–493, and the click
handler, lines 455–460): when `canShoot && now - lastShootTime > shootCooldown`,
`createBullet()` pushes a bullet whose position copies the camera position,
whose direction copies `flashlightDirection`, and whose `creationTime` is the
current game time `now`; then `lastShootTime = now`.  Otherwise nothing
changes. -/
def tryShoot (st : ShootState) (camX camY camZ dX dY dZ now : ℚ) : ShootState :=
  if st.canShoot && decide (now - st.lastShootTime > shootCooldown) then
    { st with
      bullets := st.bullets ++ [⟨camX, camY, camZ, dX, dY, dZ, now⟩]
      lastShootTime := now }
  else st

/-- The mutable game state touched by `animate` (part_000 lines 20–54,
plus the camera position, lane-segment `z` coordinates, obstacles and
bullets).  `lastShootTime`/`canShoot` belong to the input handlers and are
not read or written by `animate`. -/
structure GameState where
  camX : ℚ
  camY : ℚ
  camZ : ℚ
  targetLane : ℕ
  motion : MotionState
  isGameOver : Bool
  speed : ℚ
  gameTime : ℚ
  obstacleSpawnTimer : ℚ
  distanceTraveled : ℚ
  laneSegs : List ℚ
  obstacles : List Obstacle
  bullets : List Bullet
deriving Repr

/-- The motion substate viewed at the camera height.  `motion.y` is the
camera `y`; `camY` is kept equal to it (the source stores the height only
in `camera.position.y`; the embedding projects it into `MotionState` for
the jump/slide blocks). -/
def GameState.motionAt (st : GameState) : MotionState :=
  { st.motion with y := st.camY }

/-- One frame of `animate` (part_000 lines 502–608).  When `isGameOver` the
whole update block is skipped; camera shake is applied for rendering and
then reverted (`camera.position.copy(baseCamPos)`), so no state survives the
frame and the state is returned unchanged.  Otherwise, in source order:
advance `gameTime`, bump `speed` by `delta * 0.02`, run the spawn timer
(spawning one `createObstacle()` when it reaches `spawnInterval`), lerp the
camera `x` toward the target lane with factor `0.2`, integrate jump and
slide, move and recycle lane segments and obstacles, update bullets at the
new game time, accumulate `distanceTraveled += speed * delta`, and run
`checkCollisions` (which decides the new `isGameOver`).  The updated random
stream is returned for sequencing. -/
def animate (st : GameState) (delta : ℚ) (g : Rng) : GameState × Rng :=
  if st.isGameOver then
    (st, g)
  else
    let gameTime := st.gameTime + delta
    let speed := st.speed + delta * (1/50)
    let timer0 := st.obstacleSpawnTimer + delta
    let spawned :=
      if timer0 ≥ spawnInterval then
        let p := createObstacle g
        (st.obstacles ++ [p.1], (0 : ℚ), p.2)
      else
        (st.obstacles, timer0, g)
    let camX := lerp st.camX (lanePosAt st.targetLane) (1/5)
    let m := motionTick st.motionAt
    let laneSegs := st.laneSegs.map (moveSegment speed st.camZ)
    let po := moveObstacles speed st.camZ spawned.1 spawned.2.2
    let pb := updateBulletsAux gameTime st.bullets po.1 po.2
    let distanceTraveled := st.distanceTraveled + speed * delta
    let isGameOver := checkCollisions camX m.y st.camZ pb.2.1
    ({ camX := camX
     , camY := m.y
     , camZ := st.camZ
     , targetLane := st.targetLane
     , motion := m
     , isGameOver := isGameOver
     , speed := speed
     , gameTime := gameTime
     , obstacleSpawnTimer := spawned.2.1
     , distanceTraveled := distanceTraveled
     , laneSegs := laneSegs
     , obstacles := pb.2.1
     , bullets := pb.1 }, pb.2.2)

/-- Run `animate` over a list of per-frame `delta`s, threading the random
stream. -/
def runTicks (st : GameState) : List ℚ → Rng → GameState × Rng
  | [], g => (st, g)
  | dt :: rest, g =>
    let p := animate st dt g
    runTicks p.1 rest p.2

/-- `true` iff the game is not over at the start of every tick of the run:
each tick then executes the full update branch of `animate`. -/
def allAliveB (st : GameState) : List ℚ → Rng → Bool
  | [], _ => true
  | dt :: rest, g =>
    !st.isGameOver && allAliveB (animate st dt g).1 rest (animate st dt g).2

/-- The running sum of `speed(t) * dt(t)`, where `speed(t)` is the speed in
effect during tick `t` — the source bumps `speed` by `delta * 0.02` before
accumulating `distanceTraveled`, so `speed(t) = speed + dt * 0.02`. -/
def speedDtSum (st : GameState) : List ℚ → Rng → ℚ
  | [], _ => 0
  | dt :: rest, g =>
    (st.speed + dt * (1/50)) * dt + speedDtSum (animate st dt g).1 rest (animate st dt g).2

/-- The trace of states of a run: the initial state followed by the state
after each tick. -/
def stateTrace (st : GameState) : List ℚ → Rng → List GameState
  | [], _ => [st]
  | dt :: rest, g => st :: stateTrace (animate st dt g).1 rest (animate st dt g).2

/-- `onMouseMove` (part_000 lines 435–450): from the normalized mouse
coordinates, `angle = mouse * flashlightMaxAngle` with
`flashlightMaxAngle = π / 4`, and
`flashlightDirection.set(sin aX, sin aY, -cos aX * cos aY)`.
`createBullet()` clones this vector into the new bullet's direction. -/
noncomputable def flashlightDirectionOfMouse (mouseX mouseY : ℝ) : ℝ × ℝ × ℝ :=
  (Real.sin (mouseX * (Real.pi / 4)),
   Real.sin (mouseY * (Real.pi / 4)),
   -(Real.cos (mouseX * (Real.pi / 4)) * Real.cos (mouseY * (Real.pi / 4))))

/-- Squared Euclidean norm of a 3-vector. -/
def normSq (v : ℝ × ℝ × ℝ) : ℝ := v.1^2 + v.2.1^2 + v.2.2^2

/-- The player's grounded start state: `camera.position.y = eyeLevel`,
`isJumping = isSliding = false`, both velocities `0`
(part_000 lines 20–29 and 64). -/
def groundedStart : MotionState := ⟨8/5, 0, 0, false, false⟩

/-- A canonical random stream for concrete runs (every draw is `7/10`). -/
def constRng : Rng := ⟨fun _ => 7/10, 0⟩

/-- A canonical random stream whose draws are all `0`. -/
def zeroRng : Rng := ⟨fun _ => 0, 0⟩

/-- A ground obstacle (`y = 0.5`) one unit past the recycle threshold. -/
def pastGroundObstacle : Obstacle := ⟨0, 1/2, 101, true⟩

/-- A concrete game-over state used to witness the frozen-tick theorem. -/
def gameOverState : GameState :=
  { camX := 0, camY := 8/5, camZ := 0, targetLane := 1, motion := groundedStart
  , isGameOver := true, speed := 1/2, gameTime := 3, obstacleSpawnTimer := 2
  , distanceTraveled := 7, laneSegs := [-100, -300]
  , obstacles := [⟨0, 1/2, -50, true⟩], bullets := [⟨0, 8/5, 0, 0, 0, -1, 2⟩] }

/-- A concrete live state (center lane, grounded, no obstacles or bullets). -/
def liveStart : GameState :=
  { camX := 0, camY := 8/5, camZ := 0, targetLane := 1, motion := groundedStart
  , isGameOver := false, speed := 1/2, gameTime := 0, obstacleSpawnTimer := 0
  , distanceTraveled := 0, laneSegs := [], obstacles := [], bullets := [] }

/-- A bullet at the camera start position fired straight ahead at time 0. -/
def straightBullet : Bullet := ⟨0, 8/5, 0, 0, 0, -1, 0⟩

/-- A bullet scanning no obstacle within its hit radius leaves the obstacle
list and the random stream untouched. -/
theorem bulletHitObstacles_of_no_hit (b : Bullet) :
    ∀ (obs : List Obstacle) (g : Rng),
      (∀ ob ∈ obs, ¬ bulletObstacleDistSq b ob < 1) →
      bulletHitObstacles b obs g = (false, obs, g) := by
  intro obs
  induction obs with
  | nil => intro g _; rfl
  | cons ob rest ih =>
    intro g h
    have hob : ¬ bulletObstacleDistSq b ob < 1 := h ob (List.mem_cons_self ob rest)
    have hrest : ∀ o ∈ rest, ¬ bulletObstacleDistSq b o < 1 :=
      fun o ho => h o (List.mem_cons_of_mem ob ho)
    simp [bulletHitObstacles, hob, ih g hrest]

/-- The obstacle scan of one bullet never changes the number of live
obstacles: a breakable hit splices one out and pushes one replacement. -/
theorem bulletHitObstacles_length (b : Bullet) :
    ∀ (obs : List Obstacle) (g : Rng),
      ((bulletHitObstacles b obs g).2.1).length = obs.length := by
  intro obs
  induction obs with
  | nil => intro g; rfl
  | cons ob rest ih =>
    intro g
    by_cases hd : bulletObstacleDistSq b ob < 1
    · by_cases hb : ob.isBreakable
      · simp [bulletHitObstacles, hd, hb]
      · simp [bulletHitObstacles, hd, hb]
    · simp [bulletHitObstacles, hd, ih g]

/-- CLAIM C10: a tick executed while the game-over flag is set changes no
game state at all — player position and target lane, obstacles, bullets,
speed, game time, spawn timer and distance score are returned exactly as
they were (only presentation such as camera shake runs, and the source
reverts even that before the frame ends). -/
theorem game_over_tick_frozen (st : GameState) (delta : ℚ) (g : Rng)
    (h : st.isGameOver = true) : animate st delta g = (st, g) := by
  simp [animate, h]

/-- Witness for `game_over_tick_frozen` at a concrete frozen state. -/
theorem game_over_tick_frozen_witness :
    animate gameOverState 1 constRng = (gameOverState, constRng) :=
  game_over_tick_frozen gameOverState 1 constRng rfl

/-- CLAIM C6: a fire request at time `now` with `now - lastShootTime ≤
shootCooldown` is rejected — the bullet list and `lastShootTime` are
unchanged; otherwise (with the invariantly-true `canShoot` flag set) exactly
one bullet is appended carrying the camera position as origin, the
flashlight direction, and timestamp `now`, and `lastShootTime` becomes
`now`. -/
theorem fire_cooldown (st : ShootState) (camX camY camZ dX dY dZ now : ℚ) :
    (now - st.lastShootTime ≤ shootCooldown →
      tryShoot st camX camY camZ dX dY dZ now = st) ∧
    (st.canShoot = true → now - st.lastShootTime > shootCooldown →
      (tryShoot st camX camY camZ dX dY dZ now).bullets =
        st.bullets ++ [⟨camX, camY, camZ, dX, dY, dZ, now⟩] ∧
      (tryShoot st camX camY camZ dX dY dZ now).lastShootTime = now ∧
      (tryShoot st camX camY camZ dX dY dZ now).bullets.length =
        st.bullets.length + 1) := by
  constructor
  · intro h
    have h2 : ¬ (now - st.lastShootTime > shootCooldown) := not_lt.mpr h
    simp [tryShoot, h2]
  · intro hc h
    simp [tryShoot, hc, h]

/-- Witness for `fire_cooldown`: a request `0.2 s` after the last shot is
dropped, a request `1 s` after it fires. -/
theorem fire_cooldown_witness :
    tryShoot ⟨[], 0, true⟩ 0 (8/5) 0 0 0 (-1) (1/5) = ⟨[], 0, true⟩ ∧
    (tryShoot ⟨[], 0, true⟩ 0 (8/5) 0 0 0 (-1) 1).bullets =
      [⟨0, 8/5, 0, 0, 0, -1, 1⟩] := by
  refine ⟨(fire_cooldown ⟨[], 0, true⟩ 0 (8/5) 0 0 0 (-1) (1/5)).1 ?_, ?_⟩
  · norm_num [shootCooldown]
  · have h := (fire_cooldown ⟨[], 0, true⟩ 0 (8/5) 0 0 0 (-1) 1).2 rfl
      (by norm_num [shootCooldown])
    simpa using h.1

/-- CLAIM C3 (amended): an obstacle pushed past the recycle threshold
`cameraZ + laneLength / 2` by the tick's advance is reassigned a fresh
random lane, a fresh far-forward `z = -roll * 200 - 200`, and a freshly
rolled breakability flag (threshold `0.6`), consuming exactly three random
draws — but its height `y` (the ground/overhead class) is left unchanged:
the recycle block never touches `position.y`. -/
theorem moveObstacle_recycle_spec (ob : Obstacle) (speed camZ : ℚ) (g : Rng)
    (h : ob.z + speed > camZ + laneLength / 2) :
    (moveObstacle ob speed camZ g).1 =
      { x := lanePosAt (laneIndexOfRoll (g.seq g.idx))
      , y := ob.y
      , z := -(g.seq (g.idx + 1)) * 200 - 200
      , isBreakable := decide (g.seq (g.idx + 2) < 3/5) } ∧
    (moveObstacle ob speed camZ g).2.idx = g.idx + 3 := by
  simp [moveObstacle, Rng.next, h]

/-- Witness for `moveObstacle_recycle_spec` on a concrete recycled ground
obstacle. -/
theorem moveObstacle_recycle_witness :
    (moveObstacle pastGroundObstacle 1 0 constRng).1 =
      { x := lanePosAt (laneIndexOfRoll (constRng.seq constRng.idx))
      , y := pastGroundObstacle.y
      , z := -(constRng.seq (constRng.idx + 1)) * 200 - 200
      , isBreakable := decide (constRng.seq (constRng.idx + 2) < 3/5) } ∧
    (moveObstacle pastGroundObstacle 1 0 constRng).2.idx = constRng.idx + 3 :=
  moveObstacle_recycle_spec pastGroundObstacle 1 0 constRng
    (by norm_num [pastGroundObstacle, laneLength])

/-- Counterexample to CLAIM C3 as stated: recycling a ground obstacle keeps
`y = 0.5` even though the random draw `0.7` would, per the spec's fresh
height-class roll (`moveObstacleSpecRecycle`), have made it overhead
(`y = 2`). -/
theorem recycle_height_counterexample :
    (moveObstacle pastGroundObstacle 1 0 constRng).1.y = 1/2 ∧
    (moveObstacleSpecRecycle pastGroundObstacle 1 0 constRng).1.y = 2 := by
  constructor
  · norm_num [moveObstacle, pastGroundObstacle, constRng, Rng.next, laneLength]
  · norm_num [moveObstacleSpecRecycle, pastGroundObstacle, constRng, Rng.next, laneLength]


/-- At most one of `isJumping` and `isSliding` is set. -/
def vertModesExclusive (s : MotionState) : Prop :=
  ¬ (s.isJumping = true ∧ s.isSliding = true)

instance (s : MotionState) : Decidable (vertModesExclusive s) := by
  unfold vertModesExclusive; infer_instance

/-- CLAIM C5: while jumping, a slide request changes nothing (vertical mode
and both velocities included); while sliding, a jump request changes
nothing; the exclusivity of the two modes holds at start and is preserved
by jump requests, slide requests, and the per-frame integration. -/
theorem jump_slide_exclusive :
    (∀ s : MotionState, s.isJumping = true → trySlide s = s) ∧
    (∀ s : MotionState, s.isSliding = true → tryJump s = s) ∧
    vertModesExclusive groundedStart ∧
    (∀ s : MotionState, vertModesExclusive s →
      vertModesExclusive (tryJump s) ∧ vertModesExclusive (trySlide s) ∧
      vertModesExclusive (motionTick s)) := by
  refine ⟨?_, ?_, ?_, ?_⟩
  · intro s h; simp [trySlide, h]
  · intro s h; simp [tryJump, h]
  · simp [vertModesExclusive, groundedStart]
  · rintro ⟨y, jv, sv, j, sl⟩ h
    cases j <;> cases sl <;>
      simp_all [vertModesExclusive, tryJump, trySlide, motionTick] <;>
      split <;> simp_all

/-- Witness for `jump_slide_exclusive` at concrete states: a slide request
mid-jump and a jump request mid-slide are both ignored, and the invariant
survives a jump request from the grounded start. -/
theorem jump_slide_exclusive_witness :
    trySlide ⟨2, 3/20, 0, true, false⟩ = ⟨2, 3/20, 0, true, false⟩ ∧
    tryJump ⟨7/5, 0, -3/20, false, true⟩ = ⟨7/5, 0, -3/20, false, true⟩ ∧
    vertModesExclusive (tryJump groundedStart) := by
  refine ⟨jump_slide_exclusive.1 _ rfl, jump_slide_exclusive.2.1 _ rfl, ?_⟩
  exact (jump_slide_exclusive.2.2.2 groundedStart jump_slide_exclusive.2.2.1).1

/-- CLAIM C7: a bullet created at game time `0` (lifespan `6`) survives the
tick at game time `5.9` — it stays in the live list, moved one step, absent
an obstacle hit — and the tick at game time `6.1` removes it: expiry is the
strict test `now - creationTime > bulletLifespan`. -/
theorem projectile_lifespan (b : Bullet) (obs : List Obstacle) (g : Rng)
    (hb : b.creationTime = 0)
    (hno : ∀ ob ∈ obs, ¬ bulletObstacleDistSq (moveBullet b) ob < 1) :
    (updateBulletsAux (59/10) [b] obs g).1 = [moveBullet b] ∧
    (updateBulletsAux (61/10) [b] obs g).1 = [] := by
  constructor
  · have hlive : ¬ ((59:ℚ)/10 - b.creationTime > bulletLifespan) := by
      rw [hb]; norm_num [bulletLifespan]
    simp [updateBulletsAux, hlive, bulletHitObstacles_of_no_hit (moveBullet b) obs g hno]
  · have hdead : (61:ℚ)/10 - b.creationTime > bulletLifespan := by
      rw [hb]; norm_num [bulletLifespan]
    simp [updateBulletsAux, hdead]

/-- Witness for `projectile_lifespan` on a concrete straight-ahead bullet
with no obstacles. -/
theorem projectile_lifespan_witness :
    (updateBulletsAux (59/10) [straightBullet] [] zeroRng).1 = [moveBullet straightBullet] ∧
    (updateBulletsAux (61/10) [straightBullet] [] zeroRng).1 = [] :=
  projectile_lifespan straightBullet [] zeroRng rfl (by simp)

/-- A bullet whose first in-radius obstacle is breakable removes exactly
that obstacle and appends exactly one fresh `createObstacle()`. -/
theorem bulletHitObstacles_breakable_hit (b : Bullet) :
    ∀ (pre : List Obstacle) (ob : Obstacle) (post : List Obstacle) (g : Rng),
      (∀ o ∈ pre, ¬ bulletObstacleDistSq b o < 1) →
      bulletObstacleDistSq b ob < 1 → ob.isBreakable = true →
      bulletHitObstacles b (pre ++ ob :: post) g =
        (true, pre ++ (post ++ [(createObstacle g).1]), (createObstacle g).2) := by
  intro pre
  induction pre with
  | nil =>
    intro ob post g _ hd hbrk
    simp [bulletHitObstacles, hd, hbrk]
  | cons o rest ih =>
    intro ob post g hpre hd hbrk
    have ho : ¬ bulletObstacleDistSq b o < 1 := hpre o (List.mem_cons_self o rest)
    have hrest : ∀ o' ∈ rest, ¬ bulletObstacleDistSq b o' < 1 :=
      fun o' h' => hpre o' (List.mem_cons_of_mem o h')
    simp [bulletHitObstacles, ho, ih ob post g hrest hd hbrk]

/-- CLAIM C8: projectile hits never change the obstacle count — the full
bullet pass preserves the length of the obstacle list, and a bullet whose
first in-radius obstacle is breakable removes that one obstacle and appends
exactly one freshly randomized replacement within the same pass. -/
theorem projectile_hits_preserve_count :
    (∀ (t : ℚ) (bs : List Bullet) (obs : List Obstacle) (g : Rng),
      ((updateBulletsAux t bs obs g).2.1).length = obs.length) ∧
    (∀ (b : Bullet) (pre : List Obstacle) (ob : Obstacle) (post : List Obstacle) (g : Rng),
      (∀ o ∈ pre, ¬ bulletObstacleDistSq b o < 1) →
      bulletObstacleDistSq b ob < 1 → ob.isBreakable = true →
      bulletHitObstacles b (pre ++ ob :: post) g =
        (true, pre ++ (post ++ [(createObstacle g).1]), (createObstacle g).2)) := by
  constructor
  · intro t bs
    induction bs with
    | nil => intro obs g; rfl
    | cons b rest ih =>
      intro obs g
      by_cases hexp : t - b.creationTime > bulletLifespan
      · simp [updateBulletsAux, hexp, ih]
      · by_cases hhit : (bulletHitObstacles (moveBullet b) obs g).1
        · simp [updateBulletsAux, hexp, hhit, ih, bulletHitObstacles_length]
        · simp [updateBulletsAux, hexp, hhit, ih, bulletHitObstacles_length]
  · exact bulletHitObstacles_breakable_hit

/-- Witness for `projectile_hits_preserve_count`: the obstacle count is
preserved on a concrete pass, and a concrete breakable hit is
splice-and-replace. -/
theorem projectile_hits_preserve_count_witness :
    ((updateBulletsAux 1 [straightBullet] [⟨0, 1/2, -50, true⟩] zeroRng).2.1).length =
      [(⟨0, 1/2, -50, true⟩ : Obstacle)].length ∧
    bulletHitObstacles straightBullet [⟨0, 8/5, -1/2, true⟩] zeroRng =
      (true, [] ++ ([] ++ [(createObstacle zeroRng).1]), (createObstacle zeroRng).2) := by
  refine ⟨projectile_hits_preserve_count.1 1 [straightBullet] [⟨0, 1/2, -50, true⟩] zeroRng, ?_⟩
  have h := projectile_hits_preserve_count.2 straightBullet [] ⟨0, 8/5, -1/2, true⟩ [] zeroRng
    (by simp) (by norm_num [bulletObstacleDistSq, straightBullet]) rfl
  simpa using h

/-- `checkCollisions` reports a collision exactly when some obstacle in the
list is within horizontal (x,z) distance `< 1` of the player while the
player is not exempt (the `continue`/`break` loop structure only selects
which obstacle ends the run, not whether one does). -/
theorem checkCollisions_iff (px py pz : ℚ) (obs : List Obstacle) :
    checkCollisions px py pz obs = true ↔
      ∃ ob ∈ obs, (px - ob.x)^2 + (pz - ob.z)^2 < 1 ∧ ¬ collisionExempt py ob := by
  induction obs with
  | nil => simp [checkCollisions]
  | cons ob rest ih =>
    by_cases h1 : (px - ob.x)^2 + (pz - ob.z)^2 < 1 <;>
      by_cases h2 : collisionExempt py ob <;>
        simp [checkCollisions, h1, h2, ih]

/-- CLAIM C1 (amended): the collision check reports a collision exactly when
some obstacle, in collection order, is within horizontal (x,z) distance
`< 1` of the player while the player is not exempt, where exemption is
(player above ground level and vertical gap `> 1`) or (player below ground
level and vertical gap `> 0.5`).  In particular a player at
`y = eyeLevel + 1.2` over a ground obstacle is not colliding; a player at
`y = eyeLevel - 0.3` directly under an overhead obstacle (`y = 2`, gap
`0.7 > 0.5`) is exempt and NOT colliding; the boundary-inclusive case is a
gap of exactly `0.5` (player `y = 1.5`), which IS colliding. -/
theorem checkCollisions_rule (px py pz : ℚ) (obs : List Obstacle) :
    (checkCollisions px py pz obs = true ↔
      ∃ ob ∈ obs, (px - ob.x)^2 + (pz - ob.z)^2 < 1 ∧ ¬ collisionExempt py ob) ∧
    checkCollisions px (eyeLevel + 6/5) pz [⟨px, 1/2, pz, true⟩] = false ∧
    checkCollisions px (eyeLevel - 3/10) pz [⟨px, 2, pz, true⟩] = false ∧
    checkCollisions px (3/2) pz [⟨px, 2, pz, true⟩] = true := by
  refine ⟨checkCollisions_iff px py pz obs, ?_, ?_, ?_⟩
  · have hex : collisionExempt (eyeLevel + 6/5) (⟨px, 1/2, pz, true⟩ : Obstacle) := by
      refine Or.inl ⟨by norm_num [eyeLevel], ?_⟩
      rw [show eyeLevel + 6/5 - (⟨px, 1/2, pz, true⟩ : Obstacle).y = 23/10 by
        norm_num [eyeLevel]]
      rw [abs_of_nonneg (by norm_num)]; norm_num
    rw [Bool.eq_false_iff]
    rw [Ne, checkCollisions_iff]
    rintro ⟨ob', hmem, _, hnex⟩
    rw [List.mem_singleton] at hmem
    subst hmem
    exact hnex hex
  · have hex : collisionExempt (eyeLevel - 3/10) (⟨px, 2, pz, true⟩ : Obstacle) := by
      refine Or.inr ⟨by norm_num [eyeLevel], ?_⟩
      rw [show eyeLevel - 3/10 - (⟨px, 2, pz, true⟩ : Obstacle).y = -(7/10) by
        norm_num [eyeLevel]]
      rw [abs_neg, abs_of_nonneg (by norm_num)]; norm_num
    rw [Bool.eq_false_iff]
    rw [Ne, checkCollisions_iff]
    rintro ⟨ob', hmem, _, hnex⟩
    rw [List.mem_singleton] at hmem
    subst hmem
    exact hnex hex
  · have hex : ¬ collisionExempt (3/2) (⟨px, 2, pz, true⟩ : Obstacle) := by
      rintro (⟨h, _⟩ | ⟨_, h⟩)
      · rw [eyeLevel] at h; norm_num at h
      · rw [show (3:ℚ)/2 - (⟨px, 2, pz, true⟩ : Obstacle).y = -(1/2) by norm_num] at h
        rw [abs_neg, abs_of_nonneg (by norm_num)] at h; norm_num at h
    rw [checkCollisions_iff]
    exact ⟨⟨px, 2, pz, true⟩, List.mem_singleton_self _, by norm_num, hex⟩

/-- Counterexample to CLAIM C1 as stated: a player at
`y = eyeLevel - 0.3 = 1.3` directly under an overhead obstacle (`y = 2`) is
NOT colliding — the vertical gap is `0.7 > 0.5`, so the slide exemption
applies, contradicting the claim's "IS colliding". -/
theorem checkCollisions_overhead_counterexample :
    checkCollisions 0 (8/5 - 3/10) 0 [⟨0, 2, 0, true⟩] = false :=
  (checkCollisions_rule 0 (8/5 - 3/10) 0 []).2.2.1

/-- CLAIM C9 (amended): the flashlight direction copied into each new bullet
has squared norm `1 + sin²(angleX)·sin²(angleY)`, so it is a unit vector
exactly when one of the two sines vanishes (e.g. the mouse centred on an
axis), not for every mouse position. -/
theorem flashlight_normSq_formula (mouseX mouseY : ℝ) :
    normSq (flashlightDirectionOfMouse mouseX mouseY) =
      1 + (Real.sin (mouseX * (Real.pi / 4)))^2 * (Real.sin (mouseY * (Real.pi / 4)))^2 := by
  have hx := Real.sin_sq_add_cos_sq (mouseX * (Real.pi / 4))
  have hy := Real.sin_sq_add_cos_sq (mouseY * (Real.pi / 4))
  simp only [normSq, flashlightDirectionOfMouse]
  nlinarith [hx, hy]

/-- Counterexample to CLAIM C9 as stated: with the mouse at the corner
(`mouseX = mouseY = 1`, so both angles are `π/4`) the direction
`(sin(π/4), sin(π/4), -cos(π/4)·cos(π/4))` has squared norm `5/4 ≠ 1` —
it is not a unit vector. -/
theorem flashlight_unit_counterexample :
    normSq (flashlightDirectionOfMouse 1 1) ≠ 1 := by
  have hsq : (Real.sqrt 2 / 2)^2 = 1/2 := by
    rw [div_pow, Real.sq_sqrt (by norm_num : (2:ℝ) ≥ 0)]; norm_num
  have h : normSq (flashlightDirectionOfMouse 1 1) = 5/4 := by
    simp only [normSq, flashlightDirectionOfMouse, one_mul,
      Real.sin_pi_div_four, Real.cos_pi_div_four]
    rw [neg_pow, mul_pow, hsq]
    norm_num
  rw [h]; norm_num

/-- On a live tick, `animate` bumps `speed` by `delta * 0.02` first and then
accumulates `distanceTraveled += speed * delta` with the bumped speed. -/
theorem animate_live_fields (st : GameState) (delta : ℚ) (g : Rng)
    (h : st.isGameOver = false) :
    (animate st delta g).1.distanceTraveled =
      st.distanceTraveled + (st.speed + delta * (1/50)) * delta ∧
    (animate st delta g).1.speed = st.speed + delta * (1/50) := by
  simp [animate, h]

/-- A single tick never decreases the distance score when `delta` and the
current speed are nonnegative (a game-over tick leaves it unchanged). -/
theorem animate_distance_mono (st : GameState) (delta : ℚ) (g : Rng)
    (hd : 0 ≤ delta) (hsp : 0 ≤ st.speed) :
    st.distanceTraveled ≤ (animate st delta g).1.distanceTraveled := by
  rcases Bool.eq_false_or_eq_true st.isGameOver with h | h
  · simp [animate, h]
  · rw [(animate_live_fields st delta g h).1]; nlinarith

/-- A single tick keeps the speed nonnegative when `delta` is nonnegative. -/
theorem animate_speed_nonneg (st : GameState) (delta : ℚ) (g : Rng)
    (hd : 0 ≤ delta) (hsp : 0 ≤ st.speed) :
    0 ≤ (animate st delta g).1.speed := by
  rcases Bool.eq_false_or_eq_true st.isGameOver with h | h
  · simp [animate, h]; exact hsp
  · rw [(animate_live_fields st delta g h).2]; nlinarith

/-- Over a run of live ticks the final distance is the initial distance plus
the running sum of `speed(t) * dt(t)`. -/
theorem runTicks_distance_eq : ∀ (dts : List ℚ) (st : GameState) (g : Rng),
    allAliveB st dts g = true →
    (runTicks st dts g).1.distanceTraveled = st.distanceTraveled + speedDtSum st dts g := by
  intro dts
  induction dts with
  | nil => intro st g _; simp [runTicks, speedDtSum]
  | cons dt rest ih =>
    intro st g h
    rw [allAliveB, Bool.and_eq_true] at h
    have hgo : st.isGameOver = false := by simpa using h.1
    simp only [runTicks, speedDtSum]
    rw [ih _ _ h.2, (animate_live_fields st dt g hgo).1]
    ring

/-- The trace of a run starts at the initial state. -/
theorem stateTrace_head_eq (dts : List ℚ) (st : GameState) (g : Rng) :
    (stateTrace st dts g).head? = some st := by
  cases dts <;> rfl

/-- The distance score is non-decreasing from tick to tick along any run
with nonnegative `delta`s from a nonnegative speed. -/
theorem stateTrace_chain : ∀ (dts : List ℚ) (st : GameState) (g : Rng),
    (∀ d ∈ dts, 0 ≤ d) → 0 ≤ st.speed →
    List.Chain' (fun a b : GameState => a.distanceTraveled ≤ b.distanceTraveled)
      (stateTrace st dts g) := by
  intro dts
  induction dts with
  | nil => intro st g _ _; simp [stateTrace]
  | cons dt rest ih =>
    intro st g hdt hsp
    have hdt0 : 0 ≤ dt := hdt dt (List.mem_cons_self dt rest)
    have hdtr : ∀ d ∈ rest, 0 ≤ d := fun d hd => hdt d (List.mem_cons_of_mem dt hd)
    rw [stateTrace, List.chain'_cons']
    refine ⟨?_, ih _ _ hdtr (animate_speed_nonneg st dt g hdt0 hsp)⟩
    intro b hb
    rw [stateTrace_head_eq] at hb
    simp only [Option.mem_def, Option.some.injEq] at hb
    subst hb
    exact animate_distance_mono st dt g hdt0 hsp

/-- CLAIM C2: over any sequence of live (non-game-over) ticks, the distance
score ends at its initial value plus the running sum of `speed(t) * dt(t)`
(`speed(t)` being the speed in effect during tick `t`, after that tick's
`speed += delta * 0.02` bump), and with nonnegative `dt`s it is
non-decreasing from tick to tick. -/
theorem distance_score_sum (st : GameState) (dts : List ℚ) (g : Rng)
    (hAlive : allAliveB st dts g = true)
    (hdt : ∀ d ∈ dts, 0 ≤ d) (hsp : 0 ≤ st.speed) :
    (runTicks st dts g).1.distanceTraveled = st.distanceTraveled + speedDtSum st dts g ∧
    List.Chain' (fun a b : GameState => a.distanceTraveled ≤ b.distanceTraveled)
      (stateTrace st dts g) :=
  ⟨runTicks_distance_eq dts st g hAlive, stateTrace_chain dts st g hdt hsp⟩

/-- Witness for `distance_score_sum` on a concrete two-tick run from the
initial live state. -/
theorem distance_score_sum_witness :
    (runTicks liveStart [1, 2] zeroRng).1.distanceTraveled =
      liveStart.distanceTraveled + speedDtSum liveStart [1, 2] zeroRng ∧
    List.Chain' (fun a b : GameState => a.distanceTraveled ≤ b.distanceTraveled)
      (stateTrace liveStart [1, 2] zeroRng) :=
  distance_score_sum liveStart [1, 2] zeroRng
    (by norm_num [allAliveB, animate, liveStart, groundedStart, GameState.motionAt,
      motionTick, lerp, lanePosAt, lanePositions, laneWidth, moveObstacles,
      updateBulletsAux, checkCollisions, createObstacle, spawnInterval, eyeLevel,
      moveSegment, zeroRng, Rng.next])
    (by intro d hd; simp at hd; rcases hd with rfl | rfl <;> norm_num)
    (by norm_num [liveStart])


/-- The jump trajectory: the motion state `n` frames after a jump request
from the grounded start state. -/
def jumpRun : ℕ → MotionState
  | 0 => tryJump groundedStart
  | n + 1 => motionTick (jumpRun n)

/-- Closed form of the airborne phase: for `m ≤ 30` frames the player is
still jumping, with
`y = 1.6 + 0.15 m - 0.005 m (m - 1)` and `jumpVelocity = 0.15 - 0.01 m`. -/
theorem jumpRun_formula : ∀ m : ℕ, m ≤ 30 →
    jumpRun m = ⟨8/5 + (3/20) * m - (m * (m - 1 : ℚ)) / 200,
                 3/20 - (m : ℚ)/100, 0, true, false⟩ := by
  intro m
  induction m with
  | zero =>
    intro _
    simp [jumpRun, tryJump, groundedStart]
  | succ n ih =>
    intro h
    have hn : n ≤ 30 := by omega
    have hnq : (n : ℚ) ≤ 29 := by
      have : n ≤ 29 := by omega
      exact_mod_cast this
    have hnq0 : (0 : ℚ) ≤ n := by positivity
    rw [jumpRun, ih hn]
    simp only [motionTick]
    have hcond : ¬ (8/5 + (3/20) * (n : ℚ) - ((n : ℚ) * ((n : ℚ) - 1)) / 200 +
        (3/20 - (n : ℚ)/100) ≤ eyeLevel) := by
      rw [eyeLevel]
      intro hle
      nlinarith
    simp only [if_true, if_false, Bool.false_eq_true, reduceIte]
    rw [if_neg hcond]
    simp only [Bool.false_eq_true, if_false, reduceIte, gravity, MotionState.mk.injEq]
    refine ⟨by push_cast; ring, by push_cast; ring, by simp⟩

/-- CLAIM C4: a jump started from the grounded state with `v0 = 0.15` and
`gravity = 0.01` lands after finitely many frames — there is an `n`
(namely 31) at which the player is back at exactly ground level with
`isJumping` false and zero velocity, while on every earlier frame the
player is still jumping; the landing frame is the first on which the
integrated `y` reaches-or-crosses ground level from above. -/
theorem jump_returns_to_ground :
    ∃ n : ℕ, 0 < n ∧ (jumpRun n).isJumping = false ∧
      (jumpRun n).y = eyeLevel ∧ (jumpRun n).jumpVelocity = 0 ∧
      ∀ m < n, (jumpRun m).isJumping = true := by
  have h30 : jumpRun 30 = ⟨7/4, -(3/20), 0, true, false⟩ := by
    rw [jumpRun_formula 30 (by norm_num)]
    norm_num
  have h31 : jumpRun 31 = ⟨8/5, 0, 0, false, false⟩ := by
    show motionTick (jumpRun 30) = _
    rw [h30]
    norm_num [motionTick, eyeLevel, gravity]
  refine ⟨31, by norm_num, by rw [h31], by rw [h31, eyeLevel], by rw [h31], ?_⟩
  intro m hm
  rcases Nat.eq_zero_or_pos m with rfl | hpos
  · simp [jumpRun, tryJump, groundedStart]
  · rw [jumpRun_formula m (by omega)]
